import Mathlib

/-!
Shallow embedding of the stateful NAT64 translator of
`src/core/border_router/nat64.cpp` (class `ot::BorderRouter::Nat64`),
together with the header utilities it relies on.

Conventions of the embedding:
* machine integers are `Nat` with explicit `% 2 ^ w` where the C++ code
  truncates (uint8 / uint16 / uint32 assignments);
* IPv6 addresses are 16-elem byte lists, IPv4 addresses are 32-bit `Nat`s;
* a packet buffer (`ot::Message`) is a byte list plus the message offset;
* external collaborators that are declared but whose sources are not in the
  tree (checksum primitives, RFC 6052 address synthesis, IANA protocol and
  ICMP numbers) are modelled from the spec, and say so in their doc comment;
* the per-call monotonic clock (`TimerMilli::GetNow()`) is passed to each
  operation as an explicit `now` argument.
-/

/-- Big-endian value of a byte list (each entry is reduced mod 256, as every
C++ source byte is a uint8). -/
def bytesToNatBE (bs : List Nat) : Nat :=
  bs.foldl (fun acc b => acc * 256 + b % 256) 0

/-- Big-endian byte list of width `w` for a value `n` (truncates like a store
into a `w`-byte unsigned field). -/
def natToBytesBE (w n : Nat) : List Nat :=
  (List.range w).map (fun i => n / 256 ^ (w - 1 - i) % 256)

/-- Read `n` bytes starting at `off`, zero-padded when the list is short;
models reading into a zero-initialized (`Clear()`ed) packed struct. -/
def slicePad (bs : List Nat) (off n : Nat) : List Nat :=
  ((bs.drop off).take n) ++ List.replicate (n - ((bs.drop off).take n).length) 0

/-- Modelled from the spec: the RFC 1071 internet checksum primitive
(`ipv4_checksum` / `transport_checksum` collaborators, `net/checksum.hpp`
is not in the tree).  Bytes are paired big-endian, an odd trailing byte is
padded with zero. -/
def bytesToWords16 : List Nat → List Nat
  | [] => []
  | [b] => [b % 256 * 256]
  | b1 :: b2 :: rest => (b1 % 256 * 256 + b2 % 256) :: bytesToWords16 rest

/-- Modelled from the spec: end-around-carry fold of a ones-complement sum.
Three folds suffice for any sum below `2 ^ 48`, far above every use here. -/
def onesComplementFold (n : Nat) : Nat :=
  let n1 := n % 65536 + n / 65536
  let n2 := n1 % 65536 + n1 / 65536
  n2 % 65536 + n2 / 65536

/-- Modelled from the spec: internet checksum of a byte sequence. -/
def internetChecksum (bs : List Nat) : Nat :=
  65535 - onesComplementFold (bytesToWords16 bs).sum

/-- An IPv6 prefix (`ot::Ip6::Prefix`): 16 prefix bytes plus a bit length. -/
structure Ip6Pfx where
  bytes : List Nat
  length : Nat
deriving DecidableEq, Repr

/-- An IPv4 CIDR (`ot::Ip4::Cidr`): 32-bit network address plus bit length. -/
structure Ip4Cidr where
  address : Nat
  length : Nat
deriving DecidableEq, Repr

/-- Modelled from the spec: `Ip6::Prefix::IsValidNat64()` (its source is not
in the tree); per RFC 6052 a NAT64 prefix length is one of
32, 40, 48, 56, 64 or 96 bits. -/
def isValidNat64 (aPfx : Ip6Pfx) : Bool :=
  decide (aPfx.length = 32 ∨ aPfx.length = 40 ∨ aPfx.length = 48 ∨
          aPfx.length = 56 ∨ aPfx.length = 64 ∨ aPfx.length = 96)

/-- Modelled from the spec: `Ip6::Address::MatchesPrefix` — the first
`aPfx.length` bits of the address equal the prefix bits. -/
def matchesPfx (aAddr : List Nat) (aPfx : Ip6Pfx) : Bool :=
  let a := slicePad aAddr 0 16
  let p := slicePad aPfx.bytes 0 16
  let fullBytes := aPfx.length / 8
  let remBits := aPfx.length % 8
  decide (a.take fullBytes = p.take fullBytes) &&
    (decide (remBits = 0) ||
     decide (a.getD fullBytes 0 / 2 ^ (8 - remBits) = p.getD fullBytes 0 / 2 ^ (8 - remBits)))

/-- Modelled from the spec: `synthesize_v6_from_v4` /
`Ip6::Address::SynthesizeFromIp4Address` per RFC 6052 (bits of the IPv4
address are placed after the prefix, skipping the zero `u` octet at byte 8;
the 96-bit layout is the default arm). -/
def synthesizeFromIp4Address (aPfx : Ip6Pfx) (aIp4 : Nat) : List Nat :=
  let p := slicePad aPfx.bytes 0 16
  let v4 := natToBytesBE 4 aIp4
  if aPfx.length = 32 then p.take 4 ++ v4 ++ [0] ++ List.replicate 7 0
  else if aPfx.length = 40 then p.take 5 ++ v4.take 3 ++ [0] ++ v4.drop 3 ++ List.replicate 6 0
  else if aPfx.length = 48 then p.take 6 ++ v4.take 2 ++ [0] ++ v4.drop 2 ++ List.replicate 5 0
  else if aPfx.length = 56 then p.take 7 ++ v4.take 1 ++ [0] ++ v4.drop 1 ++ List.replicate 4 0
  else if aPfx.length = 64 then p.take 8 ++ [0] ++ v4 ++ List.replicate 3 0
  else p.take 12 ++ v4

/-- Modelled from the spec: `extract_v4_from_v6` /
`Ip4::Address::ExtractFromIp6Address` — inverse of the RFC 6052 embedding. -/
def extractFromIp6Address (aPfxLength : Nat) (aIp6 : List Nat) : Nat :=
  let b := slicePad aIp6 0 16
  bytesToNatBE
    (if aPfxLength = 32 then (b.drop 4).take 4
     else if aPfxLength = 40 then (b.drop 5).take 3 ++ (b.drop 9).take 1
     else if aPfxLength = 48 then (b.drop 6).take 2 ++ (b.drop 9).take 2
     else if aPfxLength = 56 then (b.drop 7).take 1 ++ (b.drop 9).take 3
     else if aPfxLength = 64 then (b.drop 9).take 4
     else (b.drop 12).take 4)

/-- Modelled from the spec: `Ip4::Address::SynthesizeFromCidrAndHost` — the
network portion of the CIDR combined with the host id in the low
`32 - length` bits. -/
def synthesizeFromCidrAndHost (aCidr : Ip4Cidr) (aHostId : Nat) : Nat :=
  let hostBits := 32 - aCidr.length
  aCidr.address / 2 ^ hostBits * 2 ^ hostBits + aHostId % 2 ^ hostBits

/-- `ot::Message`: the packet byte buffer plus the message offset.
`RemoveHeader`/`PrependBytes` shift the offset exactly as
`Message::RemoveHeader` and `Message::PrependBytes` do. -/
structure Msg where
  data : List Nat
  offset : Nat
deriving DecidableEq, Repr

/-- `Message::GetLength`. -/
def Msg.length (m : Msg) : Nat := m.data.length

/-- `Message::ReadBytes(off, buf, n)`: returns the available bytes (possibly
fewer than `n`). -/
def Msg.readBytes (m : Msg) (off n : Nat) : List Nat := (m.data.drop off).take n

/-- `Message::RemoveHeader(n)`: drops `n` bytes from the front; the offset is
reduced by `n`, floored at zero. -/
def Msg.removeHeader (m : Msg) (n : Nat) : Msg :=
  { data := m.data.drop n, offset := m.offset - n }

/-- `Message::PrependBytes`: adds bytes in front and moves the offset so it
keeps designating the same payload byte.  The callers of the translator
reserve enough headroom, so the operation always succeeds here. -/
def Msg.prependBytes (m : Msg) (bs : List Nat) : Msg :=
  { data := bs ++ m.data, offset := m.offset + bs.length }

/-- `Message::WriteBytes(off, buf)`: in-place overwrite (all uses in the
translator stay inside the current length). -/
def Msg.writeBytes (m : Msg) (off : Nat) (bs : List Nat) : Msg :=
  { m with data := m.data.take off ++ bs ++ m.data.drop (off + bs.length) }

/-- `Message::SetLength(n)`: truncates, or extends with unspecified bytes
(zero here; every extension is fully overwritten right after). -/
def Msg.setLength (m : Msg) (n : Nat) : Msg :=
  { m with data := m.data.take n ++ List.replicate (n - m.data.length) 0 }

/-- `Message::SetOffset`. -/
def Msg.setOffset (m : Msg) (n : Nat) : Msg := { m with offset := n }

/-- The `ot::Error` values the translator uses. -/
inductive OtError where
  | kErrorNone
  | kErrorDrop
deriving DecidableEq, Repr

/-- `Nat64::Result`, the data-path verdict alphabet. -/
inductive Result where
  | kForward
  | kDrop
  | kReplyICMP
deriving DecidableEq, Repr

/-- `ot::Ip6::Header` (40 bytes), fields as in `net/ip6_headers.hpp`. -/
structure Ip6Header where
  versTcFlow : Nat
  payloadLength : Nat
  nextHeader : Nat
  hopLimit : Nat
  source : List Nat
  destination : List Nat
deriving DecidableEq, Repr

/-- Raw 40-byte parse (`Header::ParseFrom` assigns the struct from the first
bytes of the message; the validity checks' result is ignored by the NAT64
call sites). -/
def Ip6Header.ofBytes (bs : List Nat) : Ip6Header :=
  { versTcFlow := bytesToNatBE (slicePad bs 0 4)
    payloadLength := bytesToNatBE (slicePad bs 4 2)
    nextHeader := bs.getD 6 0 % 256
    hopLimit := bs.getD 7 0 % 256
    source := slicePad bs 8 16
    destination := slicePad bs 24 16 }

/-- Serialization of the IPv6 header (big-endian fields). -/
def Ip6Header.toBytes (h : Ip6Header) : List Nat :=
  natToBytesBE 4 h.versTcFlow ++ natToBytesBE 2 h.payloadLength ++
    [h.nextHeader % 256, h.hopLimit % 256] ++
    slicePad h.source 0 16 ++ slicePad h.destination 0 16

/-- `Ip6::Header::IsVersion6`: the top nibble of the first byte is 6. -/
def Ip6Header.isVersion6 (h : Ip6Header) : Bool :=
  decide (h.versTcFlow / 2 ^ 28 = 6)

/-- An all-zero IPv6 header (`Clearable::Clear()`; also the model's stand-in
for a local header object the C++ leaves uninitialized on failure paths). -/
def Ip6Header.zero : Ip6Header :=
  { versTcFlow := 0, payloadLength := 0, nextHeader := 0, hopLimit := 0,
    source := List.replicate 16 0, destination := List.replicate 16 0 }

/-- `ot::Ip4::Header` (20 bytes), fields as in `net/ip4_headers.hpp`. -/
structure Ip4Header where
  versIhl : Nat
  dscpEcn : Nat
  totalLength : Nat
  identification : Nat
  flagsFragment : Nat
  ttl : Nat
  protocol : Nat
  checksum : Nat
  source : Nat
  destination : Nat
deriving DecidableEq, Repr

/-- Raw 20-byte parse (as with the IPv6 header, the `ParseFrom` validity
result is ignored by the NAT64 call sites). -/
def Ip4Header.ofBytes (bs : List Nat) : Ip4Header :=
  { versIhl := bs.getD 0 0 % 256
    dscpEcn := bs.getD 1 0 % 256
    totalLength := bytesToNatBE (slicePad bs 2 2)
    identification := bytesToNatBE (slicePad bs 4 2)
    flagsFragment := bytesToNatBE (slicePad bs 6 2)
    ttl := bs.getD 8 0 % 256
    protocol := bs.getD 9 0 % 256
    checksum := bytesToNatBE (slicePad bs 10 2)
    source := bytesToNatBE (slicePad bs 12 4)
    destination := bytesToNatBE (slicePad bs 16 4) }

/-- Serialization of the IPv4 header (big-endian fields). -/
def Ip4Header.toBytes (h : Ip4Header) : List Nat :=
  [h.versIhl % 256, h.dscpEcn % 256] ++ natToBytesBE 2 h.totalLength ++
    natToBytesBE 2 h.identification ++ natToBytesBE 2 h.flagsFragment ++
    [h.ttl % 256, h.protocol % 256] ++ natToBytesBE 2 h.checksum ++
    natToBytesBE 4 h.source ++ natToBytesBE 4 h.destination

/-- `Ip4::Header::IsVersion4`. -/
def Ip4Header.isVersion4 (h : Ip4Header) : Bool :=
  decide (h.versIhl / 16 = 4)

/-- `Ip4::Header::GetIhl`: the low nibble of the first byte. -/
def Ip4Header.getIhl (h : Ip4Header) : Nat := h.versIhl % 16

/-- An all-zero IPv4 header. -/
def Ip4Header.zero : Ip4Header :=
  { versIhl := 0, dscpEcn := 0, totalLength := 0, identification := 0,
    flagsFragment := 0, ttl := 0, protocol := 0, checksum := 0,
    source := 0, destination := 0 }

/-- The shared 8-byte ICMP header shape (`Ip4::Icmp::Header` and
`Ip6::Icmp::Header`): type, code, checksum and four rest-of-header bytes. -/
structure IcmpHeader where
  type : Nat
  code : Nat
  checksum : Nat
  rest : List Nat
deriving DecidableEq, Repr

/-- Raw 8-byte parse of an ICMP header. -/
def IcmpHeader.ofBytes (bs : List Nat) : IcmpHeader :=
  { type := bs.getD 0 0 % 256
    code := bs.getD 1 0 % 256
    checksum := bytesToNatBE (slicePad bs 2 2)
    rest := slicePad bs 4 4 }

/-- Serialization of an ICMP header. -/
def IcmpHeader.toBytes (h : IcmpHeader) : List Nat :=
  [h.type % 256, h.code % 256] ++ natToBytesBE 2 h.checksum ++ slicePad h.rest 0 4

/-- An all-zero ICMP header (`Clear()`; also the stand-in for the
uninitialized local `icmp4Header` of `TranslateIcmp6`). -/
def IcmpHeader.zero : IcmpHeader :=
  { type := 0, code := 0, checksum := 0, rest := [0, 0, 0, 0] }

/-- IANA protocol number for UDP (`Ip6::kProtoUdp` / `Ip4::kProtoUdp`). -/
def kProtoUdp : Nat := 17

/-- IANA protocol number for TCP (`Ip6::kProtoTcp` / `Ip4::kProtoTcp`). -/
def kProtoTcp : Nat := 6

/-- Modelled from the spec: IANA protocol number for ICMP (`Ip4::kProtoIcmp`,
declared in the missing `net/ip4_types.hpp` revision). -/
def kProtoIcmp : Nat := 1

/-- Modelled from the spec: IANA protocol number for ICMPv6
(`Ip6::kProtoIcmp6`). -/
def kProtoIcmp6 : Nat := 58

/-- `Ip4::Header::kDefaultIhl`: five 32-bit words. -/
def kDefaultIhl : Nat := 5

/-- `Ip6::Header::kNextHeaderFieldOffset`: byte offset 6 of the IPv6 header. -/
def kNextHeaderFieldOffset : Nat := 6

/-- `Ip4::Icmp::kMinErrorMessageDataLength`: the RFC 792 8-octet minimum the
translator truncates embedded payloads to. -/
def kMinErrorMessageDataLength : Nat := 8

/-- Modelled from the spec: ICMPv6 message types (RFC 4443 numbering; the
revision of `net/ip6.hpp` with `Ip6::Icmp::Header::Type` is not in the
tree). -/
def kTypeDstUnreach6 : Nat := 1

/-- ICMPv6 Packet Too Big (`kTypePacketToBig`). -/
def kTypePacketToBig6 : Nat := 2

/-- ICMPv6 Time Exceeded. -/
def kTypeTimeExceeded6 : Nat := 3

/-- ICMPv6 Parameter Problem. -/
def kTypeParameterProblem6 : Nat := 4

/-- ICMPv6 Echo Request. -/
def kTypeEchoRequest6 : Nat := 128

/-- ICMPv6 Echo Reply. -/
def kTypeEchoReply6 : Nat := 129

/-- ICMPv6 code 0 (`kCodeZero`). -/
def kCodeZero : Nat := 0

/-- ICMPv6 Destination Unreachable: no route (`kCodeDstUnreachNoRoute`). -/
def kCodeDstUnreachNoRoute : Nat := 0

/-- ICMPv6 Destination Unreachable: administratively prohibited. -/
def kCodeDstUnreachAdministrativelyProhibited : Nat := 1

/-- ICMPv6 Destination Unreachable: port unreachable. -/
def kCodeDstUnreachPortUnreach : Nat := 4

/-- ICMPv6 Parameter Problem: erroneous header field. -/
def kCodeParameterProblemErroneousHeaderField : Nat := 0

/-- ICMPv6 Parameter Problem: unrecognized next header. -/
def kCodeParameterProblemUnrecognizedNextHeader : Nat := 1

/-- Modelled from the spec: ICMPv4 message types (RFC 792 numbering; the
`Ip4::Icmp::Header::Type` revision `nat64.cpp` compiles against is not in
the tree). -/
def kTypeEchoReply4 : Nat := 0

/-- ICMPv4 Destination Unreachable. -/
def kTypeDestinationUnreachable4 : Nat := 3

/-- ICMPv4 Echo Request. -/
def kTypeEchoRequest4 : Nat := 8

/-- ICMPv4 Time Exceeded. -/
def kTypeTimeExceeded4 : Nat := 11

/-- ICMPv4 Parameter Problem. -/
def kTypeParameterProblem4 : Nat := 12

/-- Modelled from the spec: ICMPv4 Destination Unreachable codes
(RFC 792 / RFC 1812 numbering). -/
def kCodeNetworkUnreachable : Nat := 0

/-- ICMPv4 host unreachable. -/
def kCodeHostUnreachable : Nat := 1

/-- ICMPv4 protocol unreachable. -/
def kCodeProtocolUnreachable : Nat := 2

/-- ICMPv4 port unreachable. -/
def kCodePortUnreachable : Nat := 3

/-- ICMPv4 fragmentation needed. -/
def kCodeFragmentationNeeded : Nat := 4

/-- ICMPv4 source route failed. -/
def kCodeSourceRouteFailed : Nat := 5

/-- ICMPv4 destination network unknown. -/
def kCodeNetworkUnknown : Nat := 6

/-- ICMPv4 destination host unknown. -/
def kCodeHostUnknown : Nat := 7

/-- ICMPv4 source host isolated. -/
def kCodeSourceHostIsolated : Nat := 8

/-- ICMPv4 network administratively prohibited. -/
def kCodeDestNetworkAdministrativelyProhibited : Nat := 9

/-- ICMPv4 host administratively prohibited. -/
def kCodeDestHostAdministrativelyProhibited : Nat := 10

/-- ICMPv4 network unreachable for TOS. -/
def kCodeNetworkUnreachableForTos : Nat := 11

/-- ICMPv4 host unreachable for TOS. -/
def kCodeHostUnreachableForTos : Nat := 12

/-- ICMPv4 communication administratively prohibited. -/
def kCodeCommunicationAdministrativelyProhibited : Nat := 13

/-- ICMPv4 host precedence violation. -/
def kCodeHostPrecedenceViolation : Nat := 14

/-- ICMPv4 precedence cutoff in effect. -/
def kCodePrecedenceCutoff : Nat := 15

/-- ICMPv4 Parameter Problem: pointer indicates the error. -/
def kCodePointerIndicated : Nat := 0

/-- ICMPv4 Parameter Problem: bad length. -/
def kCodeBadLength : Nat := 2

/-- `Nat64::kAddressMappingPoolSize`
(`OPENTHREAD_CONFIG_BORDER_ROUTING_NAT64_MAX_MAPPINGS`, spec default 254). -/
def kAddressMappingPoolSize : Nat := 254

/-- `Nat64::kAddressMappingIdleTimeoutMsec`
(`OPENTHREAD_CONFIG_BORDER_ROUTING_NAT64_IDLE_TIMEOUT_SECONDS`, spec default
7200 s, times `Time::kOneSecondInMsec`). -/
def kAddressMappingIdleTimeoutMsec : Nat := 7200 * 1000

/-- `Nat64::AddressMapping`: one {IPv6, IPv4, expiry} table entry. -/
structure AddressMapping where
  mIP4 : Nat
  mIP6 : List Nat
  mExpiry : Nat
deriving DecidableEq, Repr

/-- `AddressMapping::Touch()`: refresh the expiry from the current time. -/
def AddressMapping.Touch (m : AddressMapping) (now : Nat) : AddressMapping :=
  { m with mExpiry := now + kAddressMappingIdleTimeoutMsec }

/-- The `Nat64` translator state.  The C++ fixed array `mIp4AddressPool` plus
`mAvailableAddressCount` behave as a stack whose top is index
`mAvailableAddressCount - 1`; it is modelled as a list with the top at the
head.  `mAddressMappingPool` (the slot allocator) is modelled by its free
slot count, and `mActiveAddressMappings` by a list with the most recently
pushed entry at the head. -/
structure Nat64State where
  mIp4AddressPool : List Nat
  mFreeMappingSlots : Nat
  mActiveAddressMappings : List AddressMapping
  mNat64Pfx : Ip6Pfx
  mIP4Cidr : Ip4Cidr
deriving DecidableEq, Repr

/-- `mAvailableAddressCount` is the number of stacked pool addresses. -/
def Nat64State.mAvailableAddressCount (s : Nat64State) : Nat :=
  s.mIp4AddressPool.length

/-- The `Nat64` constructor: empty pool, no mappings, cleared prefix and
CIDR. -/
def nat64Init : Nat64State :=
  { mIp4AddressPool := []
    mFreeMappingSlots := kAddressMappingPoolSize
    mActiveAddressMappings := []
    mNat64Pfx := { bytes := List.replicate 16 0, length := 0 }
    mIP4Cidr := { address := 0, length := 0 } }

/-- `Nat64::ReleaseMapping`: return the mapping's IPv4 address to the pool
and free its slot (the caller has already unlinked it from the active
list). -/
def Nat64State.ReleaseMapping (s : Nat64State) (aMapping : AddressMapping) : Nat64State :=
  { s with mIp4AddressPool := aMapping.mIP4 :: s.mIp4AddressPool
           mFreeMappingSlots := s.mFreeMappingSlots + 1 }

/-- The expiry sweep inside `Nat64::CreateMapping`:
`mActiveAddressMappings.RemoveAllMatching(now, idleMappings)` followed by
`ReleaseMapping` on each removed entry. -/
def Nat64State.sweepExpired (s : Nat64State) (now : Nat) : Nat64State :=
  let idle := s.mActiveAddressMappings.filter (fun m => decide (m.mExpiry < now))
  let s1 := { s with mActiveAddressMappings :=
                s.mActiveAddressMappings.filter (fun m => ! decide (m.mExpiry < now)) }
  idle.foldl Nat64State.ReleaseMapping s1

/-- The tail of `Nat64::CreateMapping` after the allocation attempt: fail and
roll the slot back when the address pool is empty, otherwise take the top
pool address, fill the mapping, `Touch()` it and push it onto the active
list (source lines 254-274). -/
def createMappingTake (s : Nat64State) (aAddr : List Nat) (now : Nat) (haveSlot : Bool) :
    Option AddressMapping × Nat64State :=
  match s.mIp4AddressPool with
  | [] => (none, if haveSlot then { s with mFreeMappingSlots := s.mFreeMappingSlots + 1 } else s)
  | ip4 :: rest =>
    if haveSlot then
      (some { mIP4 := ip4, mIP6 := aAddr, mExpiry := now + kAddressMappingIdleTimeoutMsec },
       { s with mIp4AddressPool := rest
                mActiveAddressMappings :=
                  { mIP4 := ip4, mIP6 := aAddr, mExpiry := now + kAddressMappingIdleTimeoutMsec }
                    :: s.mActiveAddressMappings })
    else (none, s)

/-- `Nat64::CreateMapping`: allocate a slot, sweeping expired mappings once
on allocation failure, then take an IPv4 address from the pool. -/
def Nat64State.CreateMapping (s : Nat64State) (aAddr : List Nat) (now : Nat) :
    Option AddressMapping × Nat64State :=
  if s.mFreeMappingSlots ≠ 0 then
    createMappingTake { s with mFreeMappingSlots := s.mFreeMappingSlots - 1 } aAddr now true
  else
    let sw := s.sweepExpired now
    if sw.mFreeMappingSlots ≠ 0 then
      createMappingTake { sw with mFreeMappingSlots := sw.mFreeMappingSlots - 1 } aAddr now true
    else
      createMappingTake sw aAddr now false

/-- `Nat64::GetMapping(Ip6::Address, aTryCreate)`: find by IPv6; the found
mapping is returned as-is (no `Touch`), otherwise optionally create. -/
def Nat64State.GetMapping6 (s : Nat64State) (aAddr : List Nat) (aTryCreate : Bool) (now : Nat) :
    Option AddressMapping × Nat64State :=
  match s.mActiveAddressMappings.find? (fun m => m.mIP6 == aAddr) with
  | some mapping => (some mapping, s)
  | none => if aTryCreate then s.CreateMapping aAddr now else (none, s)

/-- `Touch()` applied to the first active mapping bound to the IPv4 address
(the in-place mutation of the node `FindMatching` returned). -/
def touchFirstIp4 : List AddressMapping → Nat → Nat → List AddressMapping
  | [], _, _ => []
  | m :: rest, aAddr, now =>
    if m.mIP4 = aAddr then m.Touch now :: rest else m :: touchFirstIp4 rest aAddr now

/-- `Nat64::GetMapping(Ip4::Address)`: find by IPv4 and `Touch()` the found
mapping; never creates. -/
def Nat64State.GetMapping4 (s : Nat64State) (aAddr : Nat) (now : Nat) :
    Option AddressMapping × Nat64State :=
  match s.mActiveAddressMappings.find? (fun m => m.mIP4 == aAddr) with
  | some mapping =>
    (some (mapping.Touch now),
     { s with mActiveAddressMappings := touchFirstIp4 s.mActiveAddressMappings aAddr now })
  | none => (none, s)

/-- `Nat64::SetIP4Cidr` (source lines 660-708).  A call with the currently
configured CIDR is a no-op.  Otherwise the host count and first host id are
derived from the prefix length, the mapping slot pool is `FreeAll()`ed —
note the source never clears `mActiveAddressMappings` — and the address
stack is rebuilt.  The function returns nothing (`void`), accepting any
CIDR including a zero-length one. -/
def Nat64State.SetIP4Cidr (s : Nat64State) (aCidr : Ip4Cidr) : Nat64State :=
  if s.mIP4Cidr = aCidr then s
  else
    let hostIdBegin :=
      if aCidr.length = 0 then 0
      else if aCidr.length = 32 then 0
      else if aCidr.length = 31 then 0
      else 1
    let numberOfHosts :=
      if aCidr.length = 0 then 0
      else if aCidr.length = 32 then 1
      else if aCidr.length = 31 then 2
      else 2 ^ (32 - aCidr.length) - 2
    let numberOfHosts := min numberOfHosts kAddressMappingPoolSize
    { s with
      mFreeMappingSlots := kAddressMappingPoolSize
      mIp4AddressPool :=
        ((List.range numberOfHosts).map
          (fun i => synthesizeFromCidrAndHost aCidr (hostIdBegin + i))).reverse
      mIP4Cidr := aCidr }

/-- `Nat64::SetNAT64Prefix`: replace the prefix, preserving mappings. -/
def Nat64State.SetNAT64Pfx (s : Nat64State) (aNat64Pfx : Ip6Pfx) : Nat64State :=
  { s with mNat64Pfx := aNat64Pfx }

/-- Modelled from the spec: `Checksum::UpdateIPv4HeaderChecksum` — the RFC
791 header checksum computed with the checksum field zeroed. -/
def ipv4HeaderChecksum (h : Ip4Header) : Nat :=
  internetChecksum (Ip4Header.toBytes { h with checksum := 0 })

/-- Store the freshly computed IPv4 header checksum. -/
def updateIPv4HeaderChecksum (h : Ip4Header) : Ip4Header :=
  { h with checksum := ipv4HeaderChecksum h }

/-- Checksum field offset inside the transport header (UDP 6, TCP 16,
ICMP 2). -/
def transportChecksumOffsetOf (proto : Nat) : Nat :=
  if proto = kProtoUdp then 6 else if proto = kProtoTcp then 16 else 2

/-- Modelled from the spec: `Checksum::UpdateMessageChecksum` — recompute the
transport checksum over the given pseudo-header plus the message bytes from
the message offset, with the checksum field zeroed, and store it. -/
def updateMessageChecksum (aMessage : Msg) (pseudo : List Nat) (proto : Nat) : Msg :=
  let ckOff := aMessage.offset + transportChecksumOffsetOf proto
  let zeroed := aMessage.writeBytes ckOff [0, 0]
  let ck := internetChecksum (pseudo ++ zeroed.data.drop aMessage.offset)
  zeroed.writeBytes ckOff (natToBytesBE 2 ck)

/-- The IPv4 pseudo-header: source, destination, zero, protocol, length. -/
def pseudoV4 (src dst proto len : Nat) : List Nat :=
  natToBytesBE 4 src ++ natToBytesBE 4 dst ++ [0, proto % 256] ++ natToBytesBE 2 len

/-- The IPv6 pseudo-header: source, destination, 32-bit length, three zero
bytes, next header. -/
def pseudoV6 (src dst : List Nat) (len next : Nat) : List Nat :=
  slicePad src 0 16 ++ slicePad dst 0 16 ++ natToBytesBE 4 len ++ [0, 0, 0, next % 256]

/-- `Nat64::TranslateIp4Header` (source lines 302-336).  The member
`mNat64Prefix` is passed explicitly.  Note the bare
`VerifyOrExit(GetIhl() == kDefaultIhl)` exits with `kErrorNone` and the
output header untouched, exactly as the source does. -/
def TranslateIp4Header (aNat64Pfx : Ip6Pfx) (aMapping : AddressMapping)
    (aIp4Header : Ip4Header) (aIp6Header : Ip6Header) : OtError × Ip6Header :=
  if aIp4Header.destination ≠ aMapping.mIP4 then (OtError.kErrorDrop, aIp6Header)
  else if aIp4Header.getIhl ≠ kDefaultIhl then (OtError.kErrorNone, aIp6Header)
  else
    (if aIp4Header.protocol = kProtoUdp then OtError.kErrorNone
     else if aIp4Header.protocol = kProtoTcp then OtError.kErrorNone
     else if aIp4Header.protocol = kProtoIcmp then OtError.kErrorNone
     else OtError.kErrorDrop,
     { versTcFlow := 6 * 2 ^ 28
       payloadLength := (aIp4Header.totalLength + 65536 - 20) % 65536
       nextHeader :=
         if aIp4Header.protocol = kProtoUdp then kProtoUdp
         else if aIp4Header.protocol = kProtoTcp then kProtoTcp
         else if aIp4Header.protocol = kProtoIcmp then kProtoIcmp6
         else 0
       hopLimit := aIp4Header.ttl
       source := synthesizeFromIp4Address aNat64Pfx aIp4Header.source
       destination := aMapping.mIP6 })

/-- `Nat64::TranslateIp6Header` (source lines 338-370).  The TTL field is
left zero; `HandleOutgoing` fills it in the forward arm. -/
def TranslateIp6Header (aNat64Pfx : Ip6Pfx) (aMapping : AddressMapping)
    (aIp6Header : Ip6Header) (aIp4Header : Ip4Header) : OtError × Ip4Header :=
  if aIp6Header.source ≠ aMapping.mIP6 then (OtError.kErrorDrop, aIp4Header)
  else
    (if aIp6Header.nextHeader = kProtoUdp then OtError.kErrorNone
     else if aIp6Header.nextHeader = kProtoTcp then OtError.kErrorNone
     else if aIp6Header.nextHeader = kProtoIcmp6 then OtError.kErrorNone
     else OtError.kErrorDrop,
     { versIhl := 0x45
       dscpEcn := 0
       totalLength := (aIp6Header.payloadLength + 20) % 65536
       identification := 0
       flagsFragment := 0
       ttl := 0
       protocol :=
         if aIp6Header.nextHeader = kProtoUdp then kProtoUdp
         else if aIp6Header.nextHeader = kProtoTcp then kProtoTcp
         else if aIp6Header.nextHeader = kProtoIcmp6 then kProtoIcmp
         else 0
       checksum := 0
       source := aMapping.mIP4
       destination := extractFromIp6Address aNat64Pfx.length aIp6Header.destination })

/-- `Icmp4UnreachToIcmp6Header` (source lines 372-426): the ICMPv4
Destination Unreachable code table. -/
def Icmp4UnreachToIcmp6Header (aIcmp4Header : IcmpHeader) (aIcmp6Header : IcmpHeader) :
    OtError × IcmpHeader :=
  if aIcmp4Header.code = kCodeProtocolUnreachable then
    (OtError.kErrorNone,
     { aIcmp6Header with type := kTypeParameterProblem6
                         code := kCodeParameterProblemUnrecognizedNextHeader
                         rest := natToBytesBE 4 kNextHeaderFieldOffset })
  else if aIcmp4Header.code = kCodeFragmentationNeeded then
    (OtError.kErrorNone,
     { aIcmp6Header with type := kTypePacketToBig6
                         code := kCodeZero
                         rest := natToBytesBE 4
                           ((bytesToNatBE ((aIcmp4Header.rest.drop 2).take 2) + 4294967296 - 20) %
                             4294967296) })
  else if aIcmp4Header.code = kCodeHostPrecedenceViolation then
    (OtError.kErrorDrop, aIcmp6Header)
  else if aIcmp4Header.code = kCodeNetworkUnreachable ∨ aIcmp4Header.code = kCodeHostUnreachable ∨
          aIcmp4Header.code = kCodeSourceRouteFailed ∨ aIcmp4Header.code = kCodeNetworkUnknown ∨
          aIcmp4Header.code = kCodeHostUnknown ∨ aIcmp4Header.code = kCodeSourceHostIsolated ∨
          aIcmp4Header.code = kCodeNetworkUnreachableForTos ∨
          aIcmp4Header.code = kCodeHostUnreachableForTos then
    (OtError.kErrorNone,
     { aIcmp6Header with type := kTypeDstUnreach6, code := kCodeDstUnreachNoRoute })
  else if aIcmp4Header.code = kCodePortUnreachable then
    (OtError.kErrorNone,
     { aIcmp6Header with type := kTypeDstUnreach6, code := kCodeDstUnreachPortUnreach })
  else if aIcmp4Header.code = kCodeDestHostAdministrativelyProhibited ∨
          aIcmp4Header.code = kCodeDestNetworkAdministrativelyProhibited ∨
          aIcmp4Header.code = kCodeCommunicationAdministrativelyProhibited ∨
          aIcmp4Header.code = kCodePrecedenceCutoff then
    (OtError.kErrorNone,
     { aIcmp6Header with type := kTypeDstUnreach6
                         code := kCodeDstUnreachAdministrativelyProhibited })
  else (OtError.kErrorDrop, aIcmp6Header)

/-- The fixed 20-entry IPv4-offset → IPv6-offset pointer table of
`Icmp4ParameterProblemToIcmp6Header` (source line 432). -/
def pointerMap : List Nat :=
  [0, 1, 4, 4, 0xff, 0xff, 0xff, 0xff, 7, 6, 0xff, 0xff, 8, 8, 8, 8, 24, 24, 24, 24]

/-- `Icmp4ParameterProblemToIcmp6Header` (source lines 428-448). -/
def Icmp4ParameterProblemToIcmp6Header (aIcmp4Header : IcmpHeader) (aIcmp6Header : IcmpHeader) :
    OtError × IcmpHeader :=
  if aIcmp4Header.code = kCodePointerIndicated ∨ aIcmp4Header.code = kCodeBadLength then
    if aIcmp4Header.rest.getD 0 0 < 20 ∧ pointerMap.getD (aIcmp4Header.rest.getD 0 0) 255 ≠ 255 then
      (OtError.kErrorNone,
       { aIcmp6Header with type := kTypeParameterProblem6
                           code := kCodeParameterProblemErroneousHeaderField
                           rest := natToBytesBE 4 (pointerMap.getD (aIcmp4Header.rest.getD 0 0) 255) })
    else (OtError.kErrorDrop, aIcmp6Header)
  else (OtError.kErrorDrop, aIcmp6Header)

/-- `Icmp6UnreachToIcmp4Header` (source lines 596-618). -/
def Icmp6UnreachToIcmp4Header (aIcmp6Header : IcmpHeader) (aIcmp4Header : IcmpHeader) :
    OtError × IcmpHeader :=
  if aIcmp6Header.code = kCodeDstUnreachNoRoute then
    (OtError.kErrorNone,
     { aIcmp4Header with type := kTypeDestinationUnreachable4, code := kCodeHostUnreachable })
  else if aIcmp6Header.code = kCodeDstUnreachPortUnreach then
    (OtError.kErrorNone,
     { aIcmp4Header with type := kTypeDestinationUnreachable4, code := kCodePortUnreachable })
  else (OtError.kErrorDrop, aIcmp4Header)

/-- `Nat64::TranslateIcmp4Payload` (source lines 515-557): read the embedded
packet as an IPv4 header, keep at most 8 payload octets, require the
embedded source to equal the mapping's IPv4 address and the embedded header
checksum to verify, translate the header v4→v6, and rewrite the buffer. -/
def TranslateIcmp4Payload (aNat64Pfx : Ip6Pfx) (aMapping : AddressMapping) (aMessage : Msg) :
    OtError × Msg :=
  let ip4Header := Ip4Header.ofBytes (aMessage.readBytes 0 20)
  let icmpPayload := aMessage.readBytes 20 kMinErrorMessageDataLength
  if ip4Header.source ≠ aMapping.mIP4 then (OtError.kErrorDrop, aMessage)
  else if ipv4HeaderChecksum ip4Header ≠ ip4Header.checksum then (OtError.kErrorDrop, aMessage)
  else
    match TranslateIp4Header aNat64Pfx aMapping ip4Header Ip6Header.zero with
    | (e, ip6Header) =>
      if e ≠ OtError.kErrorNone then (OtError.kErrorDrop, aMessage)
      else
        let m1 := aMessage.setLength (40 + icmpPayload.length)
        let m2 := m1.writeBytes 0 ip6Header.toBytes
        (OtError.kErrorNone, m2.writeBytes 40 icmpPayload)

/-- `Nat64::TranslateIcmp6Payload` (source lines 559-594): read the embedded
packet as an IPv6 header, require the embedded destination to equal the
mapping's IPv6 address, translate the header v6→v4 and rewrite the buffer.
The pipeline never calls this function. -/
def TranslateIcmp6Payload (aNat64Pfx : Ip6Pfx) (aMapping : AddressMapping) (aMessage : Msg) :
    OtError × Msg :=
  let ip6Header := Ip6Header.ofBytes (aMessage.readBytes 0 40)
  let icmpPayload := aMessage.readBytes 40 kMinErrorMessageDataLength
  if ip6Header.destination ≠ aMapping.mIP6 then (OtError.kErrorDrop, aMessage)
  else
    match TranslateIp6Header aNat64Pfx aMapping ip6Header Ip4Header.zero with
    | (e, ip4Header) =>
      if e ≠ OtError.kErrorNone then (OtError.kErrorDrop, aMessage)
      else
        let ip4b := updateIPv4HeaderChecksum ip4Header
        let m1 := aMessage.setLength (20 + icmpPayload.length)
        let m2 := m1.writeBytes 0 ip4b.toBytes
        (OtError.kErrorNone, m2.writeBytes 20 icmpPayload)

/-- `Nat64::TranslateIcmp4` (source lines 450-513): echo rewrite in place, or
error-message translation of the embedded packet. -/
def TranslateIcmp4 (aNat64Pfx : Ip6Pfx) (aMapping : AddressMapping) (aMessage : Msg) :
    OtError × Msg :=
  let icmp4Header := IcmpHeader.ofBytes (aMessage.readBytes 0 8)
  if icmp4Header.type = kTypeEchoReply4 then
    (OtError.kErrorNone,
     aMessage.writeBytes 0 ({ icmp4Header with type := kTypeEchoReply6 }).toBytes)
  else if icmp4Header.type = kTypeEchoRequest4 then
    (OtError.kErrorNone,
     aMessage.writeBytes 0 ({ icmp4Header with type := kTypeEchoRequest6 }).toBytes)
  else if icmp4Header.type = kTypeDestinationUnreachable4 then
    let m1 := aMessage.removeHeader 8
    match Icmp4UnreachToIcmp6Header icmp4Header IcmpHeader.zero with
    | (e, icmp6Header) =>
      if e ≠ OtError.kErrorNone then (OtError.kErrorDrop, m1)
      else
        match TranslateIcmp4Payload aNat64Pfx aMapping m1 with
        | (e2, m2) =>
          if e2 ≠ OtError.kErrorNone then (OtError.kErrorDrop, m2)
          else
            let m3 := m2.prependBytes icmp6Header.toBytes
            (OtError.kErrorNone, m3.setOffset (m3.offset - 8))
  else if icmp4Header.type = kTypeTimeExceeded4 then
    -- the outgoing ICMPv6 header starts as a byte copy of the ICMPv4 one
    let icmp6Read := IcmpHeader.ofBytes (aMessage.readBytes 0 8)
    let m1 := aMessage.removeHeader 8
    match TranslateIcmp4Payload aNat64Pfx aMapping m1 with
    | (e2, m2) =>
      if e2 ≠ OtError.kErrorNone then (OtError.kErrorDrop, m2)
      else
        let m3 := m2.prependBytes ({ icmp6Read with type := kTypeTimeExceeded6 }).toBytes
        (OtError.kErrorNone, m3.setOffset (m3.offset - 8))
  else if icmp4Header.type = kTypeParameterProblem4 then
    let m1 := aMessage.removeHeader 8
    match Icmp4ParameterProblemToIcmp6Header icmp4Header IcmpHeader.zero with
    | (e, icmp6Header) =>
      if e ≠ OtError.kErrorNone then (OtError.kErrorDrop, m1)
      else
        match TranslateIcmp4Payload aNat64Pfx aMapping m1 with
        | (e2, m2) =>
          if e2 ≠ OtError.kErrorNone then (OtError.kErrorDrop, m2)
          else
            let m3 := m2.prependBytes icmp6Header.toBytes
            (OtError.kErrorNone, m3.setOffset (m3.offset - 8))
  else (OtError.kErrorDrop, aMessage)

/-- `Nat64::TranslateIcmp6` (source lines 620-658): echo rewrite in place, or
Destination Unreachable translation.  Note the error branch hands the
embedded packet to `TranslateIcmp4Payload`, which reads it as an **IPv4**
header (`TranslateIcmp6Payload` is never invoked). -/
def TranslateIcmp6 (aNat64Pfx : Ip6Pfx) (aMapping : AddressMapping) (aMessage : Msg) :
    OtError × Msg :=
  let icmp6Header := IcmpHeader.ofBytes (aMessage.readBytes 0 8)
  if icmp6Header.type = kTypeEchoReply6 then
    (OtError.kErrorNone,
     aMessage.writeBytes 0 ({ icmp6Header with type := kTypeEchoReply4 }).toBytes)
  else if icmp6Header.type = kTypeEchoRequest6 then
    (OtError.kErrorNone,
     aMessage.writeBytes 0 ({ icmp6Header with type := kTypeEchoRequest4 }).toBytes)
  else if icmp6Header.type = kTypeDstUnreach6 then
    let m1 := aMessage.removeHeader 8
    match Icmp6UnreachToIcmp4Header icmp6Header IcmpHeader.zero with
    | (e, icmp4Header) =>
      if e ≠ OtError.kErrorNone then (OtError.kErrorDrop, m1)
      else
        match TranslateIcmp4Payload aNat64Pfx aMapping m1 with
        | (e2, m2) =>
          if e2 ≠ OtError.kErrorNone then (OtError.kErrorDrop, m2)
          else
            let m3 := m2.prependBytes icmp4Header.toBytes
            (OtError.kErrorNone, m3.setOffset (m3.offset - 8))
  else (OtError.kErrorDrop, aMessage)

/-- `Nat64::HandleOutgoing` (source lines 71-149).  The verdict variable
starts at `kDrop`; only the TCP/UDP arm ever sets `kForward`, so a
successfully translated ICMPv6 packet still ends in the `kDrop` arm of the
final switch and the IPv4 header is never prepended — the model reproduces
this faithfully. -/
def Nat64State.HandleOutgoing (s : Nat64State) (aMessage : Msg) (now : Nat) :
    Result × Msg × Nat64State :=
  if aMessage.length < 40 then (Result.kDrop, aMessage, s)
  else if (Ip6Header.ofBytes (aMessage.readBytes 0 40)).isVersion6 = false then
    (Result.kDrop, aMessage, s)
  else if isValidNat64 s.mNat64Pfx = false then (Result.kForward, aMessage, s)
  else if (Ip6Header.ofBytes (aMessage.readBytes 0 40)).hopLimit ≤ 1 then
    (Result.kDrop, aMessage, s)
  else if matchesPfx (Ip6Header.ofBytes (aMessage.readBytes 0 40)).destination s.mNat64Pfx
      = false then
    (Result.kForward, aMessage, s)
  else
    match s.GetMapping6 (Ip6Header.ofBytes (aMessage.readBytes 0 40)).source true now with
    | (none, s1) => (Result.kDrop, aMessage, s1)
    | (some mapping, s1) =>
      let ip6Header := Ip6Header.ofBytes (aMessage.readBytes 0 40)
      let m1 := aMessage.removeHeader 40
      -- the TranslateIp6Header return value is ignored by the source (line 121)
      let ip4Header := (TranslateIp6Header s1.mNat64Pfx mapping ip6Header Ip4Header.zero).2
      if ip6Header.nextHeader = kProtoIcmp6 then
        (Result.kDrop, (TranslateIcmp6 s1.mNat64Pfx mapping m1).2, s1)
      else if ip6Header.nextHeader = kProtoTcp ∨ ip6Header.nextHeader = kProtoUdp then
        let ip4b := { ip4Header with
                        totalLength := (20 + (m1.length - m1.offset)) % 65536
                        ttl := ip6Header.hopLimit - 1 }
        let m2 := updateMessageChecksum m1
                    (pseudoV4 ip4b.source ip4b.destination ip4b.protocol (m1.length - m1.offset))
                    ip4b.protocol
        (Result.kForward, m2.prependBytes (updateIPv4HeaderChecksum ip4b).toBytes, s1)
      else (Result.kDrop, m1, s1)

/-- `Nat64::HandleIncoming` (source lines 151-225).  Mirrors the outgoing
pipeline; as there, only the TCP/UDP arm sets `kForward`, so translated
ICMPv4 messages come back as `kDrop`.  Note the synthesized hop limit is
whatever `TranslateIp4Header` stored (the IPv4 TTL, undecremented). -/
def Nat64State.HandleIncoming (s : Nat64State) (aMessage : Msg) (now : Nat) :
    Result × Msg × Nat64State :=
  if 40 ≤ aMessage.length ∧ (Ip6Header.ofBytes (aMessage.readBytes 0 40)).isVersion6 = true then
    (Result.kForward, aMessage, s)
  else
    let ip4Header := Ip4Header.ofBytes (aMessage.readBytes 0 20)
    if ip4Header.isVersion4 = false then (Result.kDrop, aMessage, s)
    else if s.mNat64Pfx.length = 0 then (Result.kDrop, aMessage, s)
    else if ip4Header.ttl ≤ 1 then (Result.kDrop, aMessage, s)
    else
      match s.GetMapping4 ip4Header.destination now with
      | (none, s1) => (Result.kDrop, aMessage, s1)
      | (some mapping, s1) =>
        let m1 := aMessage.removeHeader 20
        match TranslateIp4Header s1.mNat64Pfx mapping ip4Header Ip6Header.zero with
        | (e, ip6Header) =>
          if e ≠ OtError.kErrorNone then (Result.kDrop, m1, s1)
          else if ip4Header.protocol = kProtoIcmp then
            (Result.kDrop, (TranslateIcmp4 s1.mNat64Pfx mapping m1).2, s1)
          else if ip4Header.protocol = kProtoTcp ∨ ip4Header.protocol = kProtoUdp then
            let ip6b := { ip6Header with payloadLength := (m1.length - m1.offset) % 65536 }
            let m2 := updateMessageChecksum m1
                        (pseudoV6 ip6b.source ip6b.destination (m1.length - m1.offset)
                          ip6b.nextHeader)
                        ip6b.nextHeader
            (Result.kForward, m2.prependBytes ip6b.toBytes, s1)
          else (Result.kDrop, m1, s1)

/-- The host `fd00::1`, the IPv6 source used throughout the scenarios. -/
def ip6Fd00_1 : List Nat := [0xfd, 0] ++ List.replicate 13 0 ++ [1]

/-- The well-known NAT64 prefix `64:ff9b::/96`. -/
def pfx96 : Ip6Pfx :=
  { bytes := [0, 0x64, 0xff, 0x9b] ++ List.replicate 12 0, length := 96 }

/-- `64:ff9b::c000:201`, i.e. `192.0.2.1` embedded under `pfx96`. -/
def ip6Peer : List Nat :=
  [0, 0x64, 0xff, 0x9b] ++ List.replicate 8 0 ++ [0xc0, 0, 2, 1]

/-- The CIDR `192.0.2.0/24`. -/
def cidr24 : Ip4Cidr := { address := 0xc0000200, length := 24 }

/-- The CIDR `192.0.2.0/30` (hosts `.1` and `.2`). -/
def cidr30 : Ip4Cidr := { address := 0xc0000200, length := 30 }

/-- The CIDR `192.0.2.0/29` (hosts `.1` … `.6`). -/
def cidr29 : Ip4Cidr := { address := 0xc0000200, length := 29 }

/-- A zero-length (malformed) CIDR `10.0.0.0/0`. -/
def cidrZeroLen : Ip4Cidr := { address := 0x0a000000, length := 0 }

/-- A translator state that already maps `fd00::1` to `192.0.2.2`, with
`64:ff9b::/96` and `192.0.2.0/24` configured and `192.0.2.3` still free. -/
def mappingA : AddressMapping :=
  { mIP4 := 0xc0000202, mIP6 := ip6Fd00_1, mExpiry := 99999999 }

/-- State holding `mappingA`. -/
def stateA : Nat64State :=
  { mIp4AddressPool := [0xc0000203]
    mFreeMappingSlots := 253
    mActiveAddressMappings := [mappingA]
    mNat64Pfx := pfx96
    mIP4Cidr := cidr24 }

/-- A 40-byte IPv6 header as raw bytes. -/
def ip6HeaderBytes (payloadLen next hop : Nat) (src dst : List Nat) : List Nat :=
  [0x60, 0, 0, 0] ++ natToBytesBE 2 payloadLen ++ [next, hop] ++ src ++ dst

/-- Outgoing ICMPv6 Echo Request from `fd00::1` to `64:ff9b::c000:201`
(identifier `0x1234`, sequence `1`, four data bytes). -/
def msgEchoOut : Msg :=
  { data := ip6HeaderBytes 12 58 64 ip6Fd00_1 ip6Peer ++
      [128, 0, 0, 0, 0x12, 0x34, 0, 1] ++ [0x61, 0x62, 0x63, 0x64]
    offset := 0 }

/-- Outgoing UDP datagram from `fd00::1` to `64:ff9b::c000:201` (8-byte UDP
header plus 4 payload bytes). -/
def msgUdpOut : Msg :=
  { data := ip6HeaderBytes 12 17 64 ip6Fd00_1 ip6Peer ++
      [0, 53, 0, 54, 0, 12, 0, 0] ++ [0x50, 0x49, 0x4e, 0x47]
    offset := 0 }

/-- Outgoing UDP datagram to `2001:db8::1` (not under the NAT64 prefix) with
hop limit 1. -/
def msgOffPfxHop1 : Msg :=
  { data := ip6HeaderBytes 12 17 1 ip6Fd00_1
      ([0x20, 0x01, 0x0d, 0xb8] ++ List.replicate 11 0 ++ [1]) ++
      [0, 53, 0, 54, 0, 12, 0, 0] ++ [0x50, 0x49, 0x4e, 0x47]
    offset := 0 }

/-- The same off-prefix datagram with hop limit 64. -/
def msgOffPfxHop64 : Msg :=
  { data := ip6HeaderBytes 12 17 64 ip6Fd00_1
      ([0x20, 0x01, 0x0d, 0xb8] ++ List.replicate 11 0 ++ [1]) ++
      [0, 53, 0, 54, 0, 12, 0, 0] ++ [0x50, 0x49, 0x4e, 0x47]
    offset := 0 }

/-- Incoming IPv4 UDP datagram from `192.0.2.1` to the mapped `192.0.2.2`,
TTL 64 (20-byte header plus an 8-byte UDP header). -/
def msgUdpIn : Msg :=
  { data := [0x45, 0, 0, 28, 0, 0, 0, 0, 64, 17, 0, 0,
             0xc0, 0, 2, 1, 0xc0, 0, 2, 2] ++
      [0, 54, 0, 53, 0, 8, 0, 0]
    offset := 0 }

/-- Outgoing ICMPv6 message with an unsupported type (135, Neighbor
Solicitation) from `fd00::1` to `64:ff9b::c000:201`. -/
def msgIcmp6Unsupported : Msg :=
  { data := ip6HeaderBytes 8 58 64 ip6Fd00_1 ip6Peer ++ [135, 0, 0, 0, 0, 0, 0, 0]
    offset := 0 }

/-- Outgoing ICMPv6 Destination Unreachable (code 0) whose embedded 40 bytes
are simultaneously a plausible IPv6 header (version nibble 6, destination
`::`) and — read as an IPv4 header, the way `TranslateIcmp4Payload` reads
them — a header with IHL 5, protocol UDP, valid header checksum and source
and destination both equal to `192.0.2.2`. -/
def msgDstUnreachOut : Msg :=
  { data := [1, 0, 0, 0, 0, 0, 0, 0] ++
      [0x65, 0, 0, 48, 0, 0, 0, 0, 64, 17, 0xd6, 0xb8,
       0xc0, 0, 2, 2, 0xc0, 0, 2, 2] ++ List.replicate 20 0
    offset := 0 }

/-- Trace state: prefix and `192.0.2.0/30` configured, nothing mapped yet. -/
def stateT0 : Nat64State := (nat64Init.SetNAT64Pfx pfx96).SetIP4Cidr cidr30

/-- Trace state: after `msgUdpOut` created the mapping
`fd00::1 ↔ 192.0.2.2`. -/
def stateT1 : Nat64State := (stateT0.HandleOutgoing msgUdpOut 1000).2.2

/-- Trace state: after a subsequent CIDR change to `192.0.2.0/29`. -/
def stateT2 : Nat64State := stateT1.SetIP4Cidr cidr29

/-- Trace state: after the zero-length CIDR is offered to `stateT1`. -/
def stateT3 : Nat64State := stateT1.SetIP4Cidr cidrZeroLen

/-- Claim C1 (code bug): for a state mapping `fd00::1` and an ICMPv6 Echo
Request to an address under the NAT64 prefix, `TranslateIcmp6` rewrites the
echo successfully, yet `HandleOutgoing` still returns `kDrop`: the verdict
variable is initialized to `kDrop` and only the TCP/UDP arm ever sets
`kForward` (source lines 122-145), so the claimed Forward/Forward echo
round trip already fails at the first call. -/
theorem c1_echo_round_trip_code_bug :
    (TranslateIcmp6 pfx96 mappingA (msgEchoOut.removeHeader 40)).1 = OtError.kErrorNone ∧
    (stateA.HandleOutgoing msgEchoOut 5000).1 = Result.kDrop := by
  decide

/-- Claim C2 (code bug): after `SetNAT64Prefix; SetIP4Cidr(192.0.2.0/30);
HandleOutgoing(UDP from fd00::1); SetIP4Cidr(192.0.2.0/29)` the active
table still holds the old mapping (the source frees the slot pool but never
clears `mActiveAddressMappings`), so mappings + pool is 7 while the
configured host count is 6, and `192.0.2.2` occurs both as the active
mapping's IPv4 and in the rebuilt pool. -/
theorem c2_conservation_code_bug :
    stateT2.mActiveAddressMappings.length + stateT2.mAvailableAddressCount = 7 ∧
    min kAddressMappingPoolSize (2 ^ (32 - cidr29.length) - 2) = 6 ∧
    ¬ stateT2.mActiveAddressMappings.length + stateT2.mAvailableAddressCount =
        min kAddressMappingPoolSize (2 ^ (32 - cidr29.length) - 2) ∧
    stateT2.mActiveAddressMappings.map (fun m => m.mIP4) = [0xc0000202] ∧
    stateT2.mIp4AddressPool.contains 0xc0000202 = true := by
  decide

/-- Claim C3 counterexample: with the NAT64 prefix `64:ff9b::/96` validly
configured, an IPv6 packet whose destination does not match the prefix but
whose hop limit is 1 is dropped, not forwarded — the hop-limit check
(source line 98) runs before the prefix-match check (source line 104), so
the claim's "regardless of its hop limit" fails. -/
theorem c3_counterexample :
    isValidNat64 stateA.mNat64Pfx = true ∧
    ¬ msgOffPfxHop1.length < 40 ∧
    (Ip6Header.ofBytes (msgOffPfxHop1.readBytes 0 40)).isVersion6 = true ∧
    matchesPfx (Ip6Header.ofBytes (msgOffPfxHop1.readBytes 0 40)).destination
      stateA.mNat64Pfx = false ∧
    (stateA.HandleOutgoing msgOffPfxHop1 1000).1 = Result.kDrop := by
  decide

/-- Claim C3 as amended: for every packet that parses as IPv6 **with hop
limit above 1**, a configured NAT64 prefix and a non-matching destination
give verdict Forward with the buffer and translator state unchanged. -/
theorem c3_amended (s : Nat64State) (aMessage : Msg) (now : Nat)
    (h1 : ¬ aMessage.length < 40)
    (h2 : (Ip6Header.ofBytes (aMessage.readBytes 0 40)).isVersion6 = true)
    (h3 : isValidNat64 s.mNat64Pfx = true)
    (h4 : ¬ (Ip6Header.ofBytes (aMessage.readBytes 0 40)).hopLimit ≤ 1)
    (h5 : matchesPfx (Ip6Header.ofBytes (aMessage.readBytes 0 40)).destination
        s.mNat64Pfx = false) :
    s.HandleOutgoing aMessage now = (Result.kForward, aMessage, s) := by
  unfold Nat64State.HandleOutgoing
  rw [if_neg h1, h2, h3, if_neg h4, h5]
  simp

/-- Witness for `c3_amended` at the concrete off-prefix datagram. -/
theorem c3_witness :
    (¬ msgOffPfxHop64.length < 40) ∧
    (Ip6Header.ofBytes (msgOffPfxHop64.readBytes 0 40)).isVersion6 = true ∧
    isValidNat64 stateA.mNat64Pfx = true ∧
    (¬ (Ip6Header.ofBytes (msgOffPfxHop64.readBytes 0 40)).hopLimit ≤ 1) ∧
    matchesPfx (Ip6Header.ofBytes (msgOffPfxHop64.readBytes 0 40)).destination
      stateA.mNat64Pfx = false ∧
    stateA.HandleOutgoing msgOffPfxHop64 1000 = (Result.kForward, msgOffPfxHop64, stateA) :=
  ⟨by decide, by decide, by decide, by decide, by decide,
   c3_amended stateA msgOffPfxHop64 1000 (by decide) (by decide) (by decide) (by decide)
     (by decide)⟩

/-- Claim C4 counterexample: an accepted incoming IPv4 UDP datagram with
TTL 64 is forwarded with the synthesized IPv6 hop-limit byte equal to 64,
not 63 — `TranslateIp4Header` stores the TTL undecremented (source line
314) and `HandleIncoming` never decrements it afterwards. -/
theorem c4_counterexample :
    (stateA.HandleIncoming msgUdpIn 2000).1 = Result.kForward ∧
    (Ip4Header.ofBytes (msgUdpIn.readBytes 0 20)).ttl = 64 ∧
    (stateA.HandleIncoming msgUdpIn 2000).2.1.data.getD 7 0 = 64 ∧
    ¬ (stateA.HandleIncoming msgUdpIn 2000).2.1.data.getD 7 0 = 64 - 1 := by
  decide

/-- Claim C4 as amended: for every incoming IPv4 header accepted by
`TranslateIp4Header` (destination held by the mapping, IHL 5), the
synthesized IPv6 hop limit equals the IPv4 TTL **without** the claimed
decrement. -/
theorem c4_amended (aNat64Pfx : Ip6Pfx) (aMapping : AddressMapping)
    (aIp4Header : Ip4Header) (aIp6Header : Ip6Header)
    (hdst : aIp4Header.destination = aMapping.mIP4)
    (hihl : aIp4Header.getIhl = kDefaultIhl) :
    ((TranslateIp4Header aNat64Pfx aMapping aIp4Header aIp6Header).2).hopLimit
      = aIp4Header.ttl := by
  unfold TranslateIp4Header
  rw [if_neg (not_not_intro hdst), if_neg (not_not_intro hihl)]

/-- Witness for `c4_amended` at the concrete incoming UDP header. -/
theorem c4_witness :
    (Ip4Header.ofBytes (msgUdpIn.readBytes 0 20)).destination = mappingA.mIP4 ∧
    (Ip4Header.ofBytes (msgUdpIn.readBytes 0 20)).getIhl = kDefaultIhl ∧
    ((TranslateIp4Header pfx96 mappingA (Ip4Header.ofBytes (msgUdpIn.readBytes 0 20))
        Ip6Header.zero).2).hopLimit
      = (Ip4Header.ofBytes (msgUdpIn.readBytes 0 20)).ttl :=
  ⟨by decide, by decide,
   c4_amended pfx96 mappingA (Ip4Header.ofBytes (msgUdpIn.readBytes 0 20)) Ip6Header.zero
     (by decide) (by decide)⟩

/-- Claim C5 counterexample: an outgoing UDP datagram from the mapped source
`fd00::1` is forwarded using the existing mapping, yet the mapping's expiry
stays at its old value 99999999 instead of `now + idle_timeout` —
`GetMapping(Ip6::Address, …)` returns the found entry without `Touch()`
(source lines 277-289). -/
theorem c5_counterexample :
    (stateA.HandleOutgoing msgUdpOut 5000).1 = Result.kForward ∧
    (stateA.HandleOutgoing msgUdpOut 5000).2.2.mActiveAddressMappings = [mappingA] ∧
    ¬ mappingA.mExpiry = 5000 + kAddressMappingIdleTimeoutMsec := by
  decide

/-- Claim C5 as amended: the incoming-path lookup by IPv4 refreshes the found
mapping's expiry to `now + idle_timeout` (and newly created mappings start
there), but the outgoing-path lookup of an existing mapping returns it with
the translator state — and so the expiry — unchanged. -/
theorem c5_amended (s : Nat64State) (aIp4 : Nat) (aIp6 : List Nat) (now : Nat) :
    (∀ m', (s.GetMapping4 aIp4 now).1 = some m' →
        m'.mExpiry = now + kAddressMappingIdleTimeoutMsec) ∧
    (∀ m, s.mActiveAddressMappings.find? (fun x => x.mIP6 == aIp6) = some m →
        s.GetMapping6 aIp6 true now = (some m, s)) := by
  constructor
  · intro m' h
    unfold Nat64State.GetMapping4 at h
    cases hf : s.mActiveAddressMappings.find? (fun x => x.mIP4 == aIp4) with
    | none => rw [hf] at h; simp at h
    | some m =>
      rw [hf] at h
      simp only [Option.some.injEq] at h
      rw [← h]
      rfl
  · intro m h
    unfold Nat64State.GetMapping6
    rw [h]

/-- Witness for `c5_amended`: the incoming lookup on `stateA` returns the
touched mapping, and the outgoing lookup leaves the state untouched. -/
theorem c5_witness :
    ((stateA.GetMapping4 0xc0000202 2000).1 = some (mappingA.Touch 2000) ∧
      (mappingA.Touch 2000).mExpiry = 2000 + kAddressMappingIdleTimeoutMsec) ∧
    (stateA.mActiveAddressMappings.find? (fun x => x.mIP6 == ip6Fd00_1) = some mappingA ∧
      stateA.GetMapping6 ip6Fd00_1 true 2000 = (some mappingA, stateA)) :=
  ⟨⟨by decide, (c5_amended stateA 0xc0000202 ip6Fd00_1 2000).1 (mappingA.Touch 2000) (by decide)⟩,
   ⟨by decide, (c5_amended stateA 0xc0000202 ip6Fd00_1 2000).2 mappingA (by decide)⟩⟩

/-- Claim C6 (code bug): offering the zero-length CIDR `10.0.0.0/0` to a
state with a bound CIDR and one active mapping is silently accepted —
`SetIP4Cidr` returns `void`, never `InvalidArgs` — and it changes prior
state: the configured CIDR is overwritten and the address pool emptied,
while the existing mapping is not cleared either. -/
theorem c6_zero_length_cidr_code_bug :
    stateT1.mIP4Cidr = cidr30 ∧
    stateT1.mActiveAddressMappings.length = 1 ∧
    stateT3.mIP4Cidr = cidrZeroLen ∧
    stateT3.mAvailableAddressCount = 0 ∧
    stateT3.mActiveAddressMappings = stateT1.mActiveAddressMappings := by
  decide

/-- Claim C7 (code bug): an outgoing ICMPv6 Destination Unreachable whose
embedded bytes, read as an IPv6 header, carry destination `::` — not the
mapping's `fd00::1` — is nevertheless translated successfully, because the
`kTypeDstUnreach` arm of `TranslateIcmp6` (source line 647) hands the
embedded packet to `TranslateIcmp4Payload`, which reads it as an IPv4
header and checks its source; `TranslateIcmp6Payload`, which performs the
claimed IPv6 destination check, is never called and would drop this
packet. -/
theorem c7_embedded_read_as_ipv4_code_bug :
    ¬ (Ip6Header.ofBytes ((msgDstUnreachOut.removeHeader 8).readBytes 0 40)).destination
        = mappingA.mIP6 ∧
    (TranslateIcmp6 pfx96 mappingA msgDstUnreachOut).1 = OtError.kErrorNone ∧
    (TranslateIcmp6Payload pfx96 mappingA (msgDstUnreachOut.removeHeader 8)).1
      = OtError.kErrorDrop := by
  decide

/-- Claim C8: translating an ICMPv4 Parameter Problem header succeeds exactly
when the code is Pointer Indicated or Bad Length and the pointer byte `p`
satisfies `p < 20` with `pointerMap[p] ≠ 0xff`; on success the output is
ICMPv6 Parameter Problem / Erroneous Header Field carrying the mapped
pointer as a 32-bit big-endian rest-of-header, and every other case is a
drop. -/
theorem c8_parameter_problem (aIcmp4Header aIcmp6Header : IcmpHeader) :
    ((Icmp4ParameterProblemToIcmp6Header aIcmp4Header aIcmp6Header).1 = OtError.kErrorNone ↔
      ((aIcmp4Header.code = kCodePointerIndicated ∨ aIcmp4Header.code = kCodeBadLength) ∧
        aIcmp4Header.rest.getD 0 0 < 20 ∧
        pointerMap.getD (aIcmp4Header.rest.getD 0 0) 255 ≠ 255)) ∧
    ((Icmp4ParameterProblemToIcmp6Header aIcmp4Header aIcmp6Header).1 = OtError.kErrorNone →
      (Icmp4ParameterProblemToIcmp6Header aIcmp4Header aIcmp6Header).2 =
        { aIcmp6Header with
            type := kTypeParameterProblem6
            code := kCodeParameterProblemErroneousHeaderField
            rest := natToBytesBE 4 (pointerMap.getD (aIcmp4Header.rest.getD 0 0) 255) }) ∧
    ((Icmp4ParameterProblemToIcmp6Header aIcmp4Header aIcmp6Header).1 = OtError.kErrorNone ∨
      (Icmp4ParameterProblemToIcmp6Header aIcmp4Header aIcmp6Header).1 = OtError.kErrorDrop) := by
  unfold Icmp4ParameterProblemToIcmp6Header
  split_ifs with h1 h2 <;> simp_all

/-- Witness for `c8_parameter_problem` at a Pointer Indicated header whose
pointer byte 8 (the IPv4 TTL offset) maps to IPv6 offset 7, discharging the
success hypothesis of the output clause. -/
theorem c8_witness :
    (Icmp4ParameterProblemToIcmp6Header
        { type := kTypeParameterProblem4, code := kCodePointerIndicated, checksum := 0,
          rest := [8, 0, 0, 0] } IcmpHeader.zero).1 = OtError.kErrorNone ∧
    (Icmp4ParameterProblemToIcmp6Header
        { type := kTypeParameterProblem4, code := kCodePointerIndicated, checksum := 0,
          rest := [8, 0, 0, 0] } IcmpHeader.zero).2 =
      { IcmpHeader.zero with
          type := kTypeParameterProblem6
          code := kCodeParameterProblemErroneousHeaderField
          rest := natToBytesBE 4 (pointerMap.getD (([8, 0, 0, 0] : List Nat).getD 0 0) 255) } :=
  ⟨by decide,
   (c8_parameter_problem
      { type := kTypeParameterProblem4, code := kCodePointerIndicated, checksum := 0,
        rest := [8, 0, 0, 0] } IcmpHeader.zero).2.1 (by decide)⟩

/-- Claim C9: binding a CIDR different from the configured one sets the
available address count to `min(POOL_SIZE, N)` with `N = 0, 1, 2,
2^(32-L) - 2` for `L = 0, 32, 31`, otherwise, and rebuilds the pool from
the CIDR network with host-ids starting at 0 for `L ∈ {31, 32}` and at 1
otherwise (the stack top holding the highest host-id). -/
theorem c9_pool_binding (s : Nat64State) (aCidr : Ip4Cidr)
    (hne : aCidr ≠ s.mIP4Cidr) (hlen : aCidr.length ≤ 32) :
    (s.SetIP4Cidr aCidr).mAvailableAddressCount =
      min kAddressMappingPoolSize
        (if aCidr.length = 0 then 0 else if aCidr.length = 32 then 1
         else if aCidr.length = 31 then 2 else 2 ^ (32 - aCidr.length) - 2) ∧
    (s.SetIP4Cidr aCidr).mIp4AddressPool =
      ((List.range (min kAddressMappingPoolSize
          (if aCidr.length = 0 then 0 else if aCidr.length = 32 then 1
           else if aCidr.length = 31 then 2 else 2 ^ (32 - aCidr.length) - 2))).map
        (fun i => synthesizeFromCidrAndHost aCidr
          ((if aCidr.length = 31 ∨ aCidr.length = 32 then 0 else 1) + i))).reverse := by
  unfold Nat64State.SetIP4Cidr Nat64State.mAvailableAddressCount
  rw [if_neg (fun h => hne h.symm)]
  by_cases h0 : aCidr.length = 0
  · simp [h0, Nat.min_comm]
  · by_cases h32 : aCidr.length = 32
    · simp [h0, h32, Nat.min_comm]
    · by_cases h31 : aCidr.length = 31
      · simp [h0, h32, h31, Nat.min_comm]
      · simp [h0, h32, h31, Nat.min_comm]

/-- Witness for `c9_pool_binding`, binding `192.0.2.0/30` on the initial
state: two hosts with ids 1 and 2. -/
theorem c9_witness :
    cidr30 ≠ nat64Init.mIP4Cidr ∧ cidr30.length ≤ 32 ∧
    ((nat64Init.SetIP4Cidr cidr30).mAvailableAddressCount =
      min kAddressMappingPoolSize
        (if cidr30.length = 0 then 0 else if cidr30.length = 32 then 1
         else if cidr30.length = 31 then 2 else 2 ^ (32 - cidr30.length) - 2) ∧
    (nat64Init.SetIP4Cidr cidr30).mIp4AddressPool =
      ((List.range (min kAddressMappingPoolSize
          (if cidr30.length = 0 then 0 else if cidr30.length = 32 then 1
           else if cidr30.length = 31 then 2 else 2 ^ (32 - cidr30.length) - 2))).map
        (fun i => synthesizeFromCidrAndHost cidr30
          ((if cidr30.length = 31 ∨ cidr30.length = 32 then 0 else 1) + i))).reverse) :=
  ⟨by decide, by decide, c9_pool_binding nat64Init cidr30 (by decide) (by decide)⟩

/-- Helper for C10: with a free slot and a non-empty pool, looking up an
unmapped source creates the mapping directly (no sweep), consuming the pool
top. -/
theorem getMapping6_creates (s : Nat64State) (aAddr : List Nat) (now : Nat)
    (ip4 : Nat) (rest : List Nat)
    (h6 : s.mActiveAddressMappings.find? (fun m => m.mIP6 == aAddr) = none)
    (h7 : s.mFreeMappingSlots ≠ 0)
    (h8 : s.mIp4AddressPool = ip4 :: rest) :
    s.GetMapping6 aAddr true now =
      (some { mIP4 := ip4, mIP6 := aAddr, mExpiry := now + kAddressMappingIdleTimeoutMsec },
       { s with
           mFreeMappingSlots := s.mFreeMappingSlots - 1
           mIp4AddressPool := rest
           mActiveAddressMappings :=
             { mIP4 := ip4, mIP6 := aAddr, mExpiry := now + kAddressMappingIdleTimeoutMsec }
               :: s.mActiveAddressMappings }) := by
  unfold Nat64State.GetMapping6
  rw [h6]
  unfold Nat64State.CreateMapping
  rw [if_pos h7]
  unfold createMappingTake
  simp [h8]

/-- Claim C10: when `HandleOutgoing` creates a mapping for a previously
unmapped source and then drops the packet (here: an ICMPv6 payload whose
type is unsupported), the new mapping stays in the table with expiry
`now + idle_timeout` and the consumed IPv4 address is not returned to the
pool — the drop is not atomic with respect to translator state. -/
theorem c10_drop_keeps_mapping (s : Nat64State) (aMessage : Msg) (now : Nat)
    (ip4 : Nat) (rest : List Nat)
    (h1 : ¬ aMessage.length < 40)
    (h2 : (Ip6Header.ofBytes (aMessage.readBytes 0 40)).isVersion6 = true)
    (h3 : isValidNat64 s.mNat64Pfx = true)
    (h4 : ¬ (Ip6Header.ofBytes (aMessage.readBytes 0 40)).hopLimit ≤ 1)
    (h5 : matchesPfx (Ip6Header.ofBytes (aMessage.readBytes 0 40)).destination
        s.mNat64Pfx = true)
    (h6 : s.mActiveAddressMappings.find?
        (fun m => m.mIP6 == (Ip6Header.ofBytes (aMessage.readBytes 0 40)).source) = none)
    (h7 : s.mFreeMappingSlots ≠ 0)
    (h8 : s.mIp4AddressPool = ip4 :: rest)
    (h9 : (Ip6Header.ofBytes (aMessage.readBytes 0 40)).nextHeader = kProtoIcmp6)
    (h10 : (IcmpHeader.ofBytes ((aMessage.removeHeader 40).readBytes 0 8)).type
          ≠ kTypeEchoRequest6 ∧
        (IcmpHeader.ofBytes ((aMessage.removeHeader 40).readBytes 0 8)).type
          ≠ kTypeEchoReply6 ∧
        (IcmpHeader.ofBytes ((aMessage.removeHeader 40).readBytes 0 8)).type
          ≠ kTypeDstUnreach6) :
    (s.HandleOutgoing aMessage now).1 = Result.kDrop ∧
    (s.HandleOutgoing aMessage now).2.2.mActiveAddressMappings =
      { mIP4 := ip4, mIP6 := (Ip6Header.ofBytes (aMessage.readBytes 0 40)).source,
        mExpiry := now + kAddressMappingIdleTimeoutMsec } :: s.mActiveAddressMappings ∧
    (s.HandleOutgoing aMessage now).2.2.mIp4AddressPool = rest := by
  have hGM := getMapping6_creates s (Ip6Header.ofBytes (aMessage.readBytes 0 40)).source now
    ip4 rest h6 h7 h8
  unfold Nat64State.HandleOutgoing
  rw [if_neg h1, h2, h3, if_neg h4, h5, hGM]
  simp [h9]

/-- Witness for `c10_drop_keeps_mapping`: an unsupported ICMPv6 type-135
message from the unmapped `fd00::1` against the freshly configured
`stateT0` (pool `192.0.2.2`, `192.0.2.1`). -/
theorem c10_witness :
    (¬ msgIcmp6Unsupported.length < 40) ∧
    (Ip6Header.ofBytes (msgIcmp6Unsupported.readBytes 0 40)).isVersion6 = true ∧
    isValidNat64 stateT0.mNat64Pfx = true ∧
    (¬ (Ip6Header.ofBytes (msgIcmp6Unsupported.readBytes 0 40)).hopLimit ≤ 1) ∧
    matchesPfx (Ip6Header.ofBytes (msgIcmp6Unsupported.readBytes 0 40)).destination
      stateT0.mNat64Pfx = true ∧
    stateT0.mActiveAddressMappings.find?
      (fun m => m.mIP6 == (Ip6Header.ofBytes (msgIcmp6Unsupported.readBytes 0 40)).source)
      = none ∧
    stateT0.mFreeMappingSlots ≠ 0 ∧
    stateT0.mIp4AddressPool = 0xc0000202 :: [0xc0000201] ∧
    (Ip6Header.ofBytes (msgIcmp6Unsupported.readBytes 0 40)).nextHeader = kProtoIcmp6 ∧
    ((IcmpHeader.ofBytes ((msgIcmp6Unsupported.removeHeader 40).readBytes 0 8)).type
        ≠ kTypeEchoRequest6 ∧
      (IcmpHeader.ofBytes ((msgIcmp6Unsupported.removeHeader 40).readBytes 0 8)).type
        ≠ kTypeEchoReply6 ∧
      (IcmpHeader.ofBytes ((msgIcmp6Unsupported.removeHeader 40).readBytes 0 8)).type
        ≠ kTypeDstUnreach6) ∧
    ((stateT0.HandleOutgoing msgIcmp6Unsupported 7000).1 = Result.kDrop ∧
      (stateT0.HandleOutgoing msgIcmp6Unsupported 7000).2.2.mActiveAddressMappings =
        { mIP4 := 0xc0000202,
          mIP6 := (Ip6Header.ofBytes (msgIcmp6Unsupported.readBytes 0 40)).source,
          mExpiry := 7000 + kAddressMappingIdleTimeoutMsec }
          :: stateT0.mActiveAddressMappings ∧
      (stateT0.HandleOutgoing msgIcmp6Unsupported 7000).2.2.mIp4AddressPool = [0xc0000201]) :=
  ⟨by decide, by decide, by decide, by decide, by decide, by decide, by decide, by decide,
   by decide, ⟨by decide, by decide, by decide⟩,
   c10_drop_keeps_mapping stateT0 msgIcmp6Unsupported 7000 0xc0000202 [0xc0000201]
     (by decide) (by decide) (by decide) (by decide) (by decide) (by decide) (by decide)
     (by decide) (by decide) ⟨by decide, by decide, by decide⟩⟩
